import Mathlib

/-!
Verification of the CommuteWise Routing & Geocoding Engine.

This file gives a shallow embedding of the engine in Lean 4 and proves the
spec claims about it.  The embedding follows two source modules:

* `src/commutewise/services/routeCalculator.ts` — the static graph, the
  nearest-node resolver, the scan-based Dijkstra loop (array-sort used as a
  priority queue), path reconstruction and route assembly;
* `src/services/openRouteService.ts` — the geocoding gateway: throttling,
  fallback data, the fare model of `getDirections`, and
  `generateRouteVariants`.

Modelling conventions:

* JavaScript numbers are modelled as `ℚ` (exact rationals); `Math.floor`,
  `Math.ceil`, `Math.max` and `toFixed` become their exact counterparts.
* `Infinity` in the Dijkstra distance table is modelled as `none : Option ℚ`.
* `Date.now()` is an explicit `now : ℕ` argument (milliseconds).
* `setTimeout`-based sleeping is modelled by an idealised clock: `wait ms`
  completes exactly `ms` milliseconds later.
* Network calls are modelled by an explicit provider-outcome argument
  (`FetchOutcome`): the caller supplies either the parsed response or a
  transport/parse failure, and the function body is the translation of the
  corresponding `try`/`catch` branches.
-/

/- The Batteries rational arithmetic is irreducible by default, which keeps
kernel evaluation (`decide`) from running the embedded engine on concrete
inputs.  All computations in this development are tiny (a five-node graph),
so restoring reducibility is safe and lets the concrete scenarios be settled
by evaluation. -/
set_option allowUnsafeReducibility true
attribute [local semireducible] Rat.add Rat.mul Rat.sub Rat.neg Rat.div Rat.inv Rat.ofScientific

/-! ## Data model (src/commutewise/types.ts) -/

/-- `Coordinates` from types.ts: `{ lat: number; lng: number }`. -/
structure Coordinates where
  lat : ℚ
  lng : ℚ
deriving DecidableEq

/-- `RouteStep` from types.ts (instruction, transport type, distance in
meters, duration in seconds, waypoint index pair).  The transport type is a
string union in the source, kept as `String` here. -/
structure RouteStep where
  instruction : String
  type : String
  distance : ℚ
  duration : ℚ
  way_points : ℤ × ℤ
deriving DecidableEq

/-- The `'FASTEST' | 'CHEAPEST' | 'SHORTEST'` union of `CalculatedRoute.type`. -/
inductive RouteType where
  | FASTEST
  | CHEAPEST
  | SHORTEST
deriving DecidableEq

/-- `CalculatedRoute` from types.ts. -/
structure CalculatedRoute where
  id : String
  totalTimeMin : ℚ
  totalDistanceKm : ℚ
  totalCost : ℚ
  path : List Coordinates
  steps : List RouteStep
  type : RouteType
  tags : List String
deriving DecidableEq

/-! ## The static graph (routeCalculator.ts, GRAPH_NODES) -/

/-- The `'WALK' | 'RIDE'` union of a connection. -/
inductive ConnType where
  | WALK
  | RIDE
deriving DecidableEq

/-- One weighted directed edge of a `GraphNode`. -/
structure Connection where
  targetId : String
  distanceKm : ℚ
  timeMin : ℚ
  cost : ℚ
  type : ConnType
  vehicleType : Option String
deriving DecidableEq

/-- `GraphNode` from routeCalculator.ts (the `terminalType` field is kept as
a plain string since only its presence matters to the engine). -/
structure GraphNode where
  id : String
  name : String
  address : String
  coords : Coordinates
  connections : List Connection
  terminalType : Option String
deriving DecidableEq

/-- `GRAPH_NODES` from routeCalculator.ts, in object-literal insertion order
(the order `Object.values` and `Object.keys` iterate in). -/
def GRAPH_NODES : List GraphNode :=
  [ { id := "ts_palengke"
      name := "Tandang Sora Palengke"
      address := "Tandang Sora Palengke, Tandang Sora Ave, Quezon City, 1116 Metro Manila"
      coords := ⟨14.6741, 121.0359⟩
      terminalType := some "MIXED"
      connections :=
        [ ⟨"visayas_ave", 2.5, 15, 13, .RIDE, some "JEEP"⟩,
          ⟨"comm_ave", 3.0, 20, 15, .RIDE, some "JEEP"⟩ ] },
    { id := "visayas_ave"
      name := "Visayas Avenue Junction"
      address := "Visayas Avenue, corner Tandang Sora Ave, Quezon City, 1128 Metro Manila"
      coords := ⟨14.6650, 121.0450⟩
      terminalType := some "JEEP"
      connections :=
        [ ⟨"ts_palengke", 2.5, 15, 13, .RIDE, some "JEEP"⟩,
          ⟨"technohub", 4.0, 25, 20, .RIDE, some "BUS"⟩ ] },
    { id := "comm_ave"
      name := "Commonwealth Avenue"
      address := "Commonwealth Ave, Diliman, Quezon City, 1101 Metro Manila"
      coords := ⟨14.6680, 121.0550⟩
      terminalType := some "BUS"
      connections :=
        [ ⟨"ts_palengke", 3.0, 20, 15, .RIDE, some "JEEP"⟩,
          ⟨"technohub", 1.5, 5, 0, .WALK, none⟩ ] },
    { id := "technohub"
      name := "UP Ayala Technohub"
      address := "UP Ayala Technohub, Commonwealth Ave, Diliman, Quezon City, 1101 Metro Manila"
      coords := ⟨14.6575, 121.0580⟩
      terminalType := some "E_JEEP"
      connections :=
        [ ⟨"visayas_ave", 4.0, 25, 20, .RIDE, some "BUS"⟩ ] },
    { id := "culiat_tricycle"
      name := "Culiat Tricycle Toda"
      address := "Culiat High School, Tandang Sora Ave, Quezon City, 1128 Metro Manila"
      coords := ⟨14.6620, 121.0500⟩
      terminalType := some "TRICYCLE"
      connections :=
        [ ⟨"visayas_ave", 1.0, 10, 20, .RIDE, some "TRICYCLE"⟩ ] } ]

/-- `Object.keys(GRAPH_NODES)` in insertion order. -/
def nodeIds : List String := GRAPH_NODES.map (·.id)

/-- `GRAPH_NODES[id]` (string-keyed lookup). -/
def getNode (id : String) : Option GraphNode := GRAPH_NODES.find? (·.id = id)

/-- `GRAPH_NODES[u].connections` (empty for an unknown id, which the source
never passes). -/
def connectionsOf (u : String) : List Connection :=
  ((getNode u).map (·.connections)).getD []

/-! ## Nearest-node resolver (routeCalculator.ts, findNearestNode)

The source compares `Math.sqrt((Δlat)^2 + (Δlng)^2)` against the running
minimum with a strict `<`.  Since `sqrt` is strictly monotone on
nonnegative reals, comparing the squared distances yields exactly the same
branch at every step, so the embedding keeps the squares and stays in `ℚ`. -/

/-- `findNearestNode(lat, lng)`: linear scan over `GRAPH_NODES` keeping the
strictly smaller distance, ties keeping the earlier node; the initial
minimum is `Infinity` (modelled `none`) and the initial id is `null`. -/
def findNearestNode (lat lng : ℚ) : Option String :=
  (GRAPH_NODES.foldl
    (fun acc node =>
      let dist := (node.coords.lat - lat) ^ 2 + (node.coords.lng - lng) ^ 2
      match acc.1 with
      | none => (some dist, some node.id)
      | some minDesc => if dist < minDesc then (some dist, some node.id) else acc)
    ((none : Option ℚ), (none : Option String))).2

/-- Whatever id the resolver returns names a node of the graph. -/
theorem findNearestNode_mem (lat lng : ℚ) (a : String)
    (h : findNearestNode lat lng = some a) : a ∈ nodeIds := by
  simp only [findNearestNode, GRAPH_NODES, List.foldl] at h
  repeat' split at h
  all_goals simp_all [nodeIds, GRAPH_NODES]

/-- The resolver always resolves (the graph is nonempty). -/
theorem findNearestNode_isSome (lat lng : ℚ) : (findNearestNode lat lng).isSome = true := by
  simp only [findNearestNode, GRAPH_NODES, List.foldl]
  repeat' split
  all_goals rfl

/-! ## The Dijkstra loop (routeCalculator.ts, calculateRoute steps 2-4)

The tentative-distance table `distances` maps node ids to `Option ℚ`
(`none` being `Infinity`); `previous` maps node ids to predecessor ids.
The JavaScript code sorts the queue with the comparator
`distances[a] - distances[b]` on every iteration and then shifts the head.
`Array.prototype.sort` is stable (a comparator value of `NaN`, which arises
for two `Infinity` entries, is treated as *keep order*), so the embedding
uses a stable insertion sort with the same key ordering: finite values by
`<`, every finite value before `Infinity`, ties keeping queue order. -/

/-- The optimisation metric `'TIME' | 'DISTANCE' | 'COST'`. -/
inductive Metric where
  | TIME
  | DISTANCE
  | COST
deriving DecidableEq

/-- Weight selection of the relaxation step: `TIME` picks `timeMin`,
`DISTANCE` picks `distanceKm`, `COST` picks `cost`. -/
def metricWeight (m : Metric) (c : Connection) : ℚ :=
  match m with
  | .TIME => c.timeMin
  | .DISTANCE => c.distanceKm
  | .COST => c.cost

/-- Update the value stored under key `k` in an association list. -/
def setVal {α : Type} (k : String) (v : α) : List (String × α) → List (String × α)
  | [] => []
  | (k₀, v₀) :: rest => if k₀ = k then (k, v) :: rest else (k₀, v₀) :: setVal k v rest

/-- `distances[k]` (`none` is `Infinity`; a missing key also reads as
`Infinity`, which never happens on the ids the loop passes). -/
def lookupDist (d : List (String × Option ℚ)) (k : String) : Option ℚ :=
  (d.lookup k).getD none

/-- The comparator order on tentative distances: `Infinity` is greater than
every finite value and tied with itself. -/
def distLt : Option ℚ → Option ℚ → Bool
  | some x, some y => decide (x < y)
  | some _, none => true
  | none, _ => false

/-- Stable insertion into a queue already sorted by tentative distance: the
inserted element precedes the first strictly greater entry and follows every
entry it ties with only if that entry came earlier in the unsorted queue. -/
def insertByDist (d : List (String × Option ℚ)) (x : String) : List String → List String
  | [] => [x]
  | y :: rest =>
    if distLt (lookupDist d y) (lookupDist d x) then y :: insertByDist d x rest
    else x :: y :: rest

/-- `queue.sort((a, b) => distances[a] - distances[b])` as a stable
insertion sort. -/
def sortQueue (d : List (String × Option ℚ)) : List String → List String
  | [] => []
  | x :: rest => insertByDist d x (sortQueue d rest)

/-- The `for (const neighbor of neighbors)` relaxation loop: a processed
target is skipped; otherwise `alt = distances[u] + weight` replaces the
target entry when strictly smaller (with `Infinity + w = Infinity`, which is
never strictly smaller than anything). -/
def relaxConnections (m : Metric) (u : String) (processed : List String) :
    List Connection → List (String × Option ℚ) → List (String × Option String) →
    List (String × Option ℚ) × List (String × Option String)
  | [], d, p => (d, p)
  | c :: rest, d, p =>
    if c.targetId ∈ processed then relaxConnections m u processed rest d p
    else
      let alt : Option ℚ := (lookupDist d u).map (· + metricWeight m c)
      if distLt alt (lookupDist d c.targetId) then
        relaxConnections m u processed rest
          (setVal c.targetId alt d) (setVal c.targetId (some u) p)
      else relaxConnections m u processed rest d p

/-- The `while (queue.length > 0)` loop.  Each iteration sorts the queue,
shifts its head `u`, breaks when `u` is `Infinity`-distant or is the end
node, and otherwise relaxes the outgoing connections of `u` and marks `u`
processed.  One queue element is consumed per iteration, so fuel equal to
the initial queue length suffices. -/
def dijkstraLoop (m : Metric) (endNodeId : String) :
    Nat → List (String × Option ℚ) → List (String × Option String) →
    List String → List String →
    List (String × Option ℚ) × List (String × Option String)
  | 0, d, p, _, _ => (d, p)
  | fuel + 1, d, p, queue, processed =>
    match sortQueue d queue with
    | [] => (d, p)
    | u :: rest =>
      if lookupDist d u = none then (d, p)
      else if u = endNodeId then (d, p)
      else
        let next := relaxConnections m u processed (connectionsOf u) d p
        dijkstraLoop m endNodeId fuel next.1 next.2 rest (u :: processed)

/-- Path reconstruction: `while (current) { path.unshift(current); current =
previous[current] }`.  The predecessor chain of a terminating run is cycle
free, so fuel one past the node count suffices. -/
def reconstructPath (p : List (String × Option String)) :
    Nat → Option String → List String → List String
  | _, none, acc => acc
  | 0, some _, acc => acc
  | fuel + 1, some cur, acc => reconstructPath p fuel ((p.lookup cur).getD none) (cur :: acc)

/-- Steps 2-4 of `calculateRoute`: run the loop between two already
resolved node ids and return the reconstructed node-id path, or `none` when
the path does not start at the start node (`path[0] !== startNodeId`). -/
def routeNodePathFrom (startNodeId endNodeId : String) (m : Metric) : Option (List String) :=
  let d0 := setVal startNodeId (some 0) (GRAPH_NODES.map fun n => (n.id, (none : Option ℚ)))
  let p0 := GRAPH_NODES.map fun n => (n.id, (none : Option String))
  let q0 := nodeIds
  let res := dijkstraLoop m endNodeId q0.length d0 p0 q0 []
  let path := reconstructPath res.2 (q0.length + 1) (some endNodeId) []
  if path.head? = some startNodeId then some path else none

/-! ## Route assembly (routeCalculator.ts, calculateRoute step 5) -/

/-- `GRAPH_NODES[fromId].connections.find(c => c.targetId === toId)`. -/
def findConn (fromId toId : String) : Option Connection :=
  (connectionsOf fromId).find? (·.targetId = toId)

/-- `GRAPH_NODES[id].coords` (the zero coordinate stands for the unreachable
undefined access). -/
def nodeCoords (id : String) : Coordinates := ((getNode id).map (·.coords)).getD ⟨0, 0⟩

/-- `GRAPH_NODES[id].name`. -/
def nodeName (id : String) : String := ((getNode id).map (·.name)).getD ""

/-- The consecutive pairs `(path[i], path[i+1])` visited by the
`for (let i = 0; i < path.length - 1; i++)` loop. -/
def legPairs (path : List String) : List (String × String) := path.zip path.tail

/-- The running total `total* += conn.*` over the legs of the path: legs
whose connection lookup fails contribute nothing (the `if (conn)` guard). -/
def sumLegs (f : Connection → ℚ) (path : List String) : ℚ :=
  (legPairs path).foldl
    (fun acc pr =>
      match findConn pr.1 pr.2 with
      | some conn => acc + f conn
      | none => acc) 0

/-- One assembled `RouteStep`: walking legs read `Walk to <name>` with type
`WALK`; riding legs read `Ride <vehicle> to <name>` with the vehicle as type
(`CAR` when the vehicle is missing or empty, the `|| 'CAR'` fallback);
distance is converted km to m and duration min to s; waypoints are the
`[0, 0]` placeholder. -/
def stepOfConn (conn : Connection) (toId : String) : RouteStep :=
  { instruction :=
      match conn.type with
      | .WALK => "Walk to " ++ nodeName toId
      | .RIDE => "Ride " ++ (conn.vehicleType.getD "undefined") ++ " to " ++ nodeName toId
    type :=
      match conn.type with
      | .WALK => "WALK"
      | .RIDE =>
        match conn.vehicleType with
        | some v => if v = "" then "CAR" else v
        | none => "CAR"
    distance := conn.distanceKm * 1000
    duration := conn.timeMin * 60
    way_points := (0, 0) }

/-- The assembled steps of the path, in leg order. -/
def stepsOf (path : List String) : List RouteStep :=
  (legPairs path).foldr
    (fun pr acc =>
      match findConn pr.1 pr.2 with
      | some conn => stepOfConn conn pr.2 :: acc
      | none => acc) []

/-- The itinerary id `` `route-${Date.now()}` ``. -/
def routeId (now : ℕ) : String := "route-" ++ Nat.repr now

/-- `calculateRoute(start, end, metric)` from routeCalculator.ts, with the
ambient `Date.now()` made an explicit `now` argument.  Returns `null` when
either endpoint fails to resolve, when both resolve to the same node, or
when reconstruction does not reach the start node. -/
def calculateRoute (now : ℕ) (start finish : Coordinates) (metric : Metric) :
    Option CalculatedRoute :=
  match findNearestNode start.lat start.lng, findNearestNode finish.lat finish.lng with
  | some startNodeId, some endNodeId =>
    if startNodeId = endNodeId then none
    else
      match routeNodePathFrom startNodeId endNodeId metric with
      | none => none
      | some path =>
        some
          { id := routeId now
            totalTimeMin := sumLegs (·.timeMin) path
            totalDistanceKm := sumLegs (·.distanceKm) path
            totalCost := sumLegs (·.cost) path
            path := path.map nodeCoords
            steps := stepsOf path
            type :=
              match metric with
              | .TIME => .FASTEST
              | .DISTANCE => .SHORTEST
              | .COST => .CHEAPEST
            tags :=
              match metric with
              | .TIME => ["Fastest"]
              | .COST => ["Cheapest"]
              | .DISTANCE => ["Shortest"] }
  | _, _ => none

/-! ## Reference shortest-path algorithm (Bellman-Ford)

An independent reference for claim C1: relax every edge of the graph
`|V| - 1` times starting from the source and read off the resulting
distance.  On a graph without negative weights this computes the true
shortest-path distance. -/

/-- Every directed edge of the graph as a `(source, connection)` pair. -/
def allEdges : List (String × Connection) :=
  (GRAPH_NODES.map fun n => n.connections.map fun c => (n.id, c)).flatten

/-- One Bellman-Ford pass over every edge. -/
def bfRelax (m : Metric) (d : List (String × Option ℚ)) : List (String × Option ℚ) :=
  allEdges.foldl
    (fun d e =>
      match lookupDist d e.1 with
      | none => d
      | some du =>
        let alt := du + metricWeight m e.2
        match lookupDist d e.2.targetId with
        | none => setVal e.2.targetId (some alt) d
        | some dv => if alt < dv then setVal e.2.targetId (some alt) d else d)
    d

/-- `k` Bellman-Ford passes. -/
def bfIter (m : Metric) (d : List (String × Option ℚ)) : Nat → List (String × Option ℚ)
  | 0 => d
  | k + 1 => bfRelax m (bfIter m d k)

/-- The reference shortest-path distance from `src` to `dst` under metric
`m` (`none` when `dst` is unreachable). -/
def bellmanFordDist (m : Metric) (src dst : String) : Option ℚ :=
  let d0 := setVal src (some 0) (GRAPH_NODES.map fun n => (n.id, (none : Option ℚ)))
  lookupDist (bfIter m d0 (GRAPH_NODES.length - 1)) dst

/-- The metric-selected headline total of an itinerary. -/
def metricTotal (m : Metric) (r : CalculatedRoute) : ℚ :=
  match m with
  | .TIME => r.totalTimeMin
  | .DISTANCE => r.totalDistanceKm
  | .COST => r.totalCost

/-- The metric-selected edge-weight sum along a node path. -/
def pathMetricSum (m : Metric) (path : List String) : ℚ := sumLegs (metricWeight m) path

/-- All three metrics. -/
def allMetrics : List Metric := [.TIME, .DISTANCE, .COST]

/-- Exhaustive check, over every ordered pair of graph nodes and every
metric, that whenever the Dijkstra loop yields a path its metric-selected
weight sum equals the Bellman-Ford reference distance. -/
def optimalityCheck : Bool :=
  nodeIds.all fun a =>
    nodeIds.all fun b =>
      allMetrics.all fun m =>
        match routeNodePathFrom a b m with
        | none => true
        | some path => decide ((some (pathMetricSum m path) : Option ℚ) = bellmanFordDist m a b)

/-- The exhaustive optimality check holds. -/
theorem optimalityCheck_true : optimalityCheck = true := by decide

/-- Per-node-pair optimality, extracted from the exhaustive check. -/
theorem optimality_core (a b : String) (ha : a ∈ nodeIds) (hb : b ∈ nodeIds)
    (m : Metric) (path : List String) (hp : routeNodePathFrom a b m = some path) :
    (some (pathMetricSum m path) : Option ℚ) = bellmanFordDist m a b := by
  have h := optimalityCheck_true
  unfold optimalityCheck at h
  rw [List.all_eq_true] at h
  have h1 := h a ha
  rw [List.all_eq_true] at h1
  have h2 := h1 b hb
  rw [List.all_eq_true] at h2
  have h3 := h2 m (by cases m <;> simp [allMetrics])
  rw [hp] at h3
  exact of_decide_eq_true h3

/-- C1: for every pair of input coordinates and every metric, if
`calculateRoute` returns an itinerary, the metric-selected weight sum along
the returned node path (which is exactly the corresponding headline total)
equals the true shortest-path distance between the resolved start and end
nodes computed by the Bellman-Ford reference (the fixed graph has no
negative weights). -/
theorem calculateRoute_optimality (now : ℕ) (start finish : Coordinates) (m : Metric)
    (a b : String) (ha : findNearestNode start.lat start.lng = some a)
    (hb : findNearestNode finish.lat finish.lng = some b)
    (r : CalculatedRoute) (hr : calculateRoute now start finish m = some r) :
    (some (metricTotal m r) : Option ℚ) = bellmanFordDist m a b := by
  unfold calculateRoute at hr
  rw [ha, hb] at hr
  dsimp only at hr
  by_cases hab : a = b
  · rw [if_pos hab] at hr
    exact absurd hr (by simp)
  · rw [if_neg hab] at hr
    cases hp : routeNodePathFrom a b m with
    | none => rw [hp] at hr; exact absurd hr (by simp)
    | some path =>
      rw [hp] at hr
      have hre := (Option.some.inj hr).symm
      subst hre
      have hopt := optimality_core a b (findNearestNode_mem _ _ a ha)
        (findNearestNode_mem _ _ b hb) m path hp
      cases m <;> exact hopt

/-- The concrete route the engine returns for the spec scenario endpoints
(start at the palengke, end at the technohub, metric TIME). -/
def scenarioRoute : CalculatedRoute :=
  { id := "route-0"
    totalTimeMin := 25
    totalDistanceKm := 4.5
    totalCost := 15
    path := [⟨14.6741, 121.0359⟩, ⟨14.6680, 121.0550⟩, ⟨14.6575, 121.0580⟩]
    steps :=
      [ { instruction := "Ride JEEP to Commonwealth Avenue"
          type := "JEEP"
          distance := 3000
          duration := 1200
          way_points := (0, 0) },
        { instruction := "Walk to UP Ayala Technohub"
          type := "WALK"
          distance := 1500
          duration := 300
          way_points := (0, 0) } ]
    type := .FASTEST
    tags := ["Fastest"] }

/-- Witness for C1 at concrete inputs: the TIME route from the palengke to
the technohub has metric total equal to the reference distance. -/
theorem calculateRoute_optimality_witness :
    (some (metricTotal .TIME scenarioRoute) : Option ℚ) =
      bellmanFordDist .TIME "ts_palengke" "technohub" :=
  calculateRoute_optimality 0 ⟨14.6741, 121.0359⟩ ⟨14.6575, 121.0580⟩ .TIME
    "ts_palengke" "technohub" (by decide) (by decide) scenarioRoute (by decide)

/-- C2 counterexample: at the scenario endpoints themselves the engine does
not return the 3-node route through visayas_ave with totals 40 and 33
claimed by the spec. -/
theorem scenario_graph_mode_counterexample :
    (calculateRoute 0 ⟨14.6741, 121.0359⟩ ⟨14.6575, 121.0580⟩ .TIME).map
        (fun r => (r.path, r.totalTimeMin, r.totalCost)) ≠
      some ([⟨14.6741, 121.0359⟩, ⟨14.6650, 121.0450⟩, ⟨14.6575, 121.0580⟩], 40, 33) := by
  decide

/-- C2 (amended): from any point resolving to `ts_palengke` to any point
resolving to `technohub`, the TIME route is the 3-node path `ts_palengke`,
`comm_ave`, `technohub` with `totalTimeMin = 25` and `totalCost = 15`. -/
theorem scenario_graph_mode (now : ℕ) (start finish : Coordinates)
    (hs : findNearestNode start.lat start.lng = some "ts_palengke")
    (hf : findNearestNode finish.lat finish.lng = some "technohub") :
    (calculateRoute now start finish .TIME).map (fun r => (r.path, r.totalTimeMin, r.totalCost)) =
      some ([⟨14.6741, 121.0359⟩, ⟨14.6680, 121.0550⟩, ⟨14.6575, 121.0580⟩], 25, 15) := by
  unfold calculateRoute
  rw [hs, hf]
  dsimp only
  rw [if_neg (by decide : ¬ ("ts_palengke" : String) = "technohub"),
    show routeNodePathFrom "ts_palengke" "technohub" .TIME =
        some ["ts_palengke", "comm_ave", "technohub"] from by decide]
  dsimp only [Option.map]
  decide

/-- Witness for C2 (amended) at the node coordinates themselves. -/
theorem scenario_graph_mode_witness :
    (calculateRoute 0 ⟨14.6741, 121.0359⟩ ⟨14.6575, 121.0580⟩ .TIME).map
        (fun r => (r.path, r.totalTimeMin, r.totalCost)) =
      some ([⟨14.6741, 121.0359⟩, ⟨14.6680, 121.0550⟩, ⟨14.6575, 121.0580⟩], 25, 15) :=
  scenario_graph_mode 0 ⟨14.6741, 121.0359⟩ ⟨14.6575, 121.0580⟩ (by decide) (by decide)

/-- C5: when either endpoint fails to resolve, or both endpoints resolve to
the same graph node (in particular for identical start and end
coordinates), `calculateRoute` returns the empty result. -/
theorem calculateRoute_degenerate (now : ℕ) (start finish : Coordinates) (m : Metric)
    (h : findNearestNode start.lat start.lng = none ∨
         findNearestNode finish.lat finish.lng = none ∨
         findNearestNode start.lat start.lng = findNearestNode finish.lat finish.lng) :
    calculateRoute now start finish m = none := by
  unfold calculateRoute
  cases hs : findNearestNode start.lat start.lng with
  | none => rfl
  | some a =>
    cases hf : findNearestNode finish.lat finish.lng with
    | none => rfl
    | some b =>
      rcases h with h | h | h
      · rw [hs] at h; exact absurd h (by simp)
      · rw [hf] at h; exact absurd h (by simp)
      · rw [hs, hf] at h
        dsimp only
        rw [if_pos (Option.some.inj h)]

/-- Witness for C5: identical start and end coordinates yield the empty
result. -/
theorem calculateRoute_degenerate_witness :
    calculateRoute 0 ⟨14.6741, 121.0359⟩ ⟨14.6741, 121.0359⟩ .TIME = none :=
  calculateRoute_degenerate 0 ⟨14.6741, 121.0359⟩ ⟨14.6741, 121.0359⟩ .TIME
    (Or.inr (Or.inr rfl))

/-! ## Geocoding gateway (src/services/openRouteService.ts)

The gateway talks to the network; the embedding makes its two ambient
inputs explicit: the millisecond clock (`lastCallTime`/`now`) and the
provider outcome of each fetch (`FetchOutcome`).  `await wait(ms)` is
modelled as completing exactly `ms` milliseconds later, so the moment an
outbound call fires is a pure function of `lastCallTime` and `now`. -/

/-- The outcome the provider hands back: a parsed response or any
transport/parse failure (the `catch` branch). -/
inductive FetchOutcome (α : Type) where
  | failure
  | success (val : α)

/-- `MIN_CALL_INTERVAL` from openRouteService.ts. -/
def MIN_CALL_INTERVAL : ℤ := 1000

/-- When the outbound `searchPlaces` fetch fires: the source waits a fixed
200 ms whenever less than `MIN_CALL_INTERVAL` has elapsed since the last
call, and otherwise fires immediately. -/
def searchPlacesCallTime (lastCallTime now : ℤ) : ℤ :=
  if now - lastCallTime < MIN_CALL_INTERVAL then now + 200 else now

/-- When the outbound `reverseGeocode` fetch fires: the source waits a
fixed 500 ms whenever less than 500 ms has elapsed since the last call. -/
def reverseGeocodeCallTime (lastCallTime now : ℤ) : ℤ :=
  if now - lastCallTime < 500 then now + 500 else now

/-- When the outbound `getDirections` fetch fires: the source waits exactly
the remaining part of `MIN_CALL_INTERVAL`. -/
def getDirectionsCallTime (lastCallTime now : ℤ) : ℤ :=
  if now - lastCallTime < MIN_CALL_INTERVAL then
    now + (MIN_CALL_INTERVAL - (now - lastCallTime))
  else now

/-- A normalised place result `{name, address, lat, lng}`. -/
structure PlaceResult where
  name : String
  address : String
  lat : ℚ
  lng : ℚ
deriving DecidableEq

/-- `MOCK_FALLBACK_LOCATIONS` from openRouteService.ts. -/
def MOCK_FALLBACK_LOCATIONS : List PlaceResult :=
  [ ⟨"Tandang Sora Palengke", "Tandang Sora Ave, Quezon City", 14.6741, 121.0359⟩,
    ⟨"Visayas Avenue Junction", "Visayas Ave, Quezon City", 14.6650, 121.0450⟩,
    ⟨"Commonwealth Market", "Commonwealth Ave, Quezon City", 14.6680, 121.0550⟩,
    ⟨"UP Ayala Technohub", "Commonwealth Ave, Diliman, QC", 14.6575, 121.0580⟩,
    ⟨"SM City North EDSA", "North Avenue, Quezon City", 14.6560, 121.0290⟩,
    ⟨"Trinoma Mall", "North Avenue, Quezon City", 14.6540, 121.0330⟩,
    ⟨"Quezon City Hall", "Kalayaan Ave, Quezon City", 14.6460, 121.0490⟩,
    ⟨"Iglesia Ni Cristo (Central)", "Commonwealth Ave, Quezon City", 14.6610, 121.0540⟩,
    ⟨"Culiat High School", "Tandang Sora Ave, Quezon City", 14.6620, 121.0500⟩ ]

/-- `String.prototype.toLowerCase()` (the strings involved are ASCII). -/
def toLowerStr (s : String) : String := ⟨s.data.map Char.toLower⟩

/-- Does the first character list start with the second one? -/
def charsStartWith : List Char → List Char → Bool
  | _, [] => true
  | [], _ :: _ => false
  | c :: cs, d :: ds => c = d && charsStartWith cs ds

/-- Does the first character list contain the second as a contiguous run? -/
def charsContain : List Char → List Char → Bool
  | hay, needle =>
    charsStartWith hay needle ||
      match hay with
      | [] => false
      | _ :: rest => charsContain rest needle

/-- `s.includes(q)`: substring containment. -/
def jsIncludes (s q : String) : Bool := charsContain s.data q.data

/-- The case-insensitive match `searchPlaces` applies to a fallback entry:
`l.name.toLowerCase().includes(lowerQuery) ||
l.address.toLowerCase().includes(lowerQuery)`. -/
def matchesQuery (lowerQuery : String) (l : PlaceResult) : Bool :=
  jsIncludes (toLowerStr l.name) lowerQuery || jsIncludes (toLowerStr l.address) lowerQuery

/-- One parsed geocoding feature (`properties.name`, `properties.label`,
`geometry.coordinates` in GeoJSON `[lng, lat]` order). -/
structure GeoFeature where
  name : String
  label : String
  coordinates : ℚ × ℚ

/-- `searchPlaces(query)` from openRouteService.ts: short queries fail
closed to `[]` before any fetch; a successful response is mapped into
normalised places; any failure falls back to the case-insensitive substring
filter over `MOCK_FALLBACK_LOCATIONS`. -/
def searchPlaces (query : String) (outcome : FetchOutcome (List GeoFeature)) :
    List PlaceResult :=
  if query = "" ∨ query.length < 3 then []
  else
    match outcome with
    | .success features =>
      features.map fun f => ⟨f.name, f.label, f.coordinates.2, f.coordinates.1⟩
    | .failure =>
      MOCK_FALLBACK_LOCATIONS.filter (matchesQuery (toLowerStr query))

/-- Left-pad a digit string with zeros to four places. -/
def padZeros4 (s : String) : String := ⟨List.replicate (4 - s.length) '0' ++ s.data⟩

/-- `x.toFixed(4)` for the nonnegative coordinates the gateway formats:
round half toward positive infinity at the fourth decimal and print with
exactly four fractional digits. -/
def jsToFixed4 (q : ℚ) : String :=
  let scaled : ℤ := ⌊q * 10000 + mkRat 1 2⌋
  toString (scaled / 10000) ++ "." ++ padZeros4 (toString (scaled % 10000))

/-- `parseFloat(x.toFixed(2))`: the value rounded half toward positive
infinity at the second decimal. -/
def jsToFixed2 (q : ℚ) : ℚ := mkRat ⌊q * 100 + mkRat 1 2⌋ 100

/-- The `{name, area}` value `reverseGeocode` resolves with. -/
structure RGResult where
  name : String
  area : String
deriving DecidableEq

/-- The dynamically shaped `features[0].properties` object of a reverse
geocoding response: each field may be absent (`none`) or present, and a
present empty string is still falsy for the `||` chains. -/
structure RGProps where
  neighbourhood : Option String
  locality : Option String
  borough : Option String
  county : Option String
  region : Option String
  name : Option String
  street : Option String
  label : Option String

/-- The JavaScript `a || b` on a possibly absent string: keep `a` when it
is present and non-empty, else fall through to `b`. -/
def jsOrStr (o : Option String) (d : String) : String :=
  match o with
  | some s => if s = "" then d else s
  | none => d

/-- `reverseGeocode(lat, lng)` from openRouteService.ts: a failure falls
back to a generic label built from the 4-decimal rounded coordinates; an
empty feature list resolves with the unknown-location placeholder; else the
name and area are extracted by the `||` priority chains. -/
def reverseGeocode (lat lng : ℚ) (outcome : FetchOutcome (List RGProps)) :
    Option RGResult :=
  match outcome with
  | .failure =>
    some ⟨"Location Coordinates", jsToFixed4 lat ++ ", " ++ jsToFixed4 lng⟩
  | .success [] => some ⟨"Unknown Location", "Address not found"⟩
  | .success (props :: _) =>
    some ⟨jsOrStr props.neighbourhood (jsOrStr props.locality (jsOrStr props.borough
            (jsOrStr props.county (jsOrStr props.region "Unknown Location")))),
          jsOrStr props.name (jsOrStr props.street (jsOrStr props.label "Unknown Area"))⟩

/-- `feature.properties.summary` of a directions response. -/
structure DirectionsSummary where
  distance : ℚ
  duration : ℚ

/-- One turn instruction of a directions segment. -/
structure OrsStep where
  instruction : String
  distance : ℚ
  duration : ℚ
  way_points : ℤ × ℤ

/-- One segment of a directions response. -/
structure OrsSegment where
  steps : List OrsStep

/-- One feature of a directions response: optional segments, the summary,
and the GeoJSON LineString coordinates in `[lng, lat]` order. -/
structure OrsFeature where
  segments : Option (List OrsSegment)
  summary : DirectionsSummary
  coordinates : List (ℚ × ℚ)

/-- `getDirections(start, end)` from openRouteService.ts (the start and end
coordinates only shape the request, not the response handling, so they are
omitted): failures and empty feature lists return `null`; otherwise the
first feature is normalised into a FASTEST itinerary, with
`totalTimeMin = ceil(duration / 60)` and the fare model
`ceil(13 + max(0, (distKm - 4) * 2))`. -/
def getDirections (now : ℕ) (outcome : FetchOutcome (List OrsFeature)) :
    Option CalculatedRoute :=
  match outcome with
  | .failure => none
  | .success [] => none
  | .success (feature :: _) =>
    let path : List Coordinates := feature.coordinates.map fun c => ⟨c.2, c.1⟩
    let steps : List RouteStep :=
      match feature.segments with
      | none => []
      | some segs =>
        (segs.map fun seg =>
          seg.steps.map fun st =>
            ({ instruction := st.instruction, type := "CAR", distance := st.distance,
               duration := st.duration, way_points := st.way_points } : RouteStep)).flatten
    let distKm := feature.summary.distance
    let durationMin : ℚ := ((⌈feature.summary.duration / 60⌉ : ℤ) : ℚ)
    let baseFare : ℚ := 13
    let fare : ℚ := baseFare + max 0 ((distKm - 4) * 2)
    some
      { id := routeId now
        totalTimeMin := durationMin
        totalDistanceKm := jsToFixed2 distKm
        totalCost := ((⌈fare⌉ : ℤ) : ℚ)
        path := path
        steps := steps
        type := .FASTEST
        tags := ["Fare", "Distance", "Time"] }

/-- `generateRouteVariants(baseRoute)` from openRouteService.ts. -/
def generateRouteVariants (baseRoute : CalculatedRoute) : List CalculatedRoute :=
  let fastest : CalculatedRoute :=
    { baseRoute with
        type := .FASTEST
        id := baseRoute.id ++ "_fast"
        tags := ["Fastest", "Comfort"] }
  let cheapest : CalculatedRoute :=
    { baseRoute with
        id := baseRoute.id ++ "_cheap"
        totalCost := max 13 ((⌊baseRoute.totalCost * (0.7 : ℚ)⌋ : ℤ) : ℚ)
        totalTimeMin := ((⌈baseRoute.totalTimeMin * (1.3 : ℚ)⌉ : ℤ) : ℚ)
        type := .CHEAPEST
        tags := ["Budget", "Saver"] }
  let shortest : CalculatedRoute :=
    { baseRoute with
        id := baseRoute.id ++ "_short"
        totalDistanceKm := jsToFixed2 (baseRoute.totalDistanceKm * (0.95 : ℚ))
        totalTimeMin := ((⌈baseRoute.totalTimeMin * (1.1 : ℚ)⌉ : ℤ) : ℚ)
        type := .SHORTEST
        tags := ["Eco", "Direct"] }
  [fastest, cheapest, shortest]

/-- C3: `generateRouteVariants` returns exactly three itineraries: the base
relabeled FASTEST with id suffix `_fast`; a CHEAPEST variant with
`totalCost = max(13, floor(base.totalCost * 0.7))` and
`totalTimeMin = ceil(base.totalTimeMin * 1.3)`, id suffix `_cheap`; and a
SHORTEST variant with `totalDistanceKm` equal to 95% of the base rounded to
two decimals and `totalTimeMin = ceil(base.totalTimeMin * 1.1)`, id suffix
`_short`; all three keep the path and legs of the base. -/
theorem generateRouteVariants_spec (b : CalculatedRoute) :
    (generateRouteVariants b).length = 3 ∧
    (generateRouteVariants b)[0]? =
      some { b with type := .FASTEST, id := b.id ++ "_fast", tags := ["Fastest", "Comfort"] } ∧
    ((generateRouteVariants b)[1]?).map
        (fun v => (v.totalCost, v.totalTimeMin, v.totalDistanceKm, v.type, v.id, v.path, v.steps)) =
      some (max 13 ((⌊b.totalCost * (0.7 : ℚ)⌋ : ℤ) : ℚ),
        ((⌈b.totalTimeMin * (1.3 : ℚ)⌉ : ℤ) : ℚ), b.totalDistanceKm,
        .CHEAPEST, b.id ++ "_cheap", b.path, b.steps) ∧
    ((generateRouteVariants b)[2]?).map
        (fun v => (v.totalCost, v.totalTimeMin, v.totalDistanceKm, v.type, v.id, v.path, v.steps)) =
      some (b.totalCost, ((⌈b.totalTimeMin * (1.1 : ℚ)⌉ : ℤ) : ℚ),
        jsToFixed2 (b.totalDistanceKm * (0.95 : ℚ)),
        .SHORTEST, b.id ++ "_short", b.path, b.steps) :=
  ⟨rfl, rfl, rfl, rfl⟩

/-- C4 counterexample: a `searchPlaces` call issued at the very moment of
the previous outbound call fires only 200 ms after it, below the claimed
1000 ms minimum interval. -/
theorem throttle_counterexample :
    searchPlacesCallTime 0 0 - 0 = 200 ∧
    ¬ MIN_CALL_INTERVAL ≤ searchPlacesCallTime 0 0 - 0 := by
  decide

/-- C4 (amended): under the idealised clock, a back-to-back `getDirections`
call fires at least `MIN_CALL_INTERVAL` (1000 ms) after the previous
outbound call, because it sleeps exactly the remaining interval; a
back-to-back `reverseGeocode` call fires at least 500 ms after it, because
it sleeps a full 500 ms whenever less than 500 ms elapsed; but a
back-to-back `searchPlaces` call sleeps only a fixed 200 ms when called
within 1000 ms, so its guaranteed gap is 200 ms, not 1000 ms. -/
theorem throttle_gaps (lastCallTime now : ℤ) (h : lastCallTime ≤ now) :
    MIN_CALL_INTERVAL ≤ getDirectionsCallTime lastCallTime now - lastCallTime ∧
    500 ≤ reverseGeocodeCallTime lastCallTime now - lastCallTime ∧
    200 ≤ searchPlacesCallTime lastCallTime now - lastCallTime := by
  unfold getDirectionsCallTime reverseGeocodeCallTime searchPlacesCallTime MIN_CALL_INTERVAL
  split_ifs <;> omega

/-- Witness for C4 (amended): both calls issued at the same instant. -/
theorem throttle_gaps_witness :
    MIN_CALL_INTERVAL ≤ getDirectionsCallTime 0 0 - 0 ∧
    500 ≤ reverseGeocodeCallTime 0 0 - 0 ∧
    200 ≤ searchPlacesCallTime 0 0 - 0 :=
  throttle_gaps 0 0 (by decide)

/-- C6: on any transport/parse failure, `searchPlaces` returns exactly the
entries of the fixed fallback list whose name or address contains the query
case-insensitively (a non-empty sublist of the fallback list for "SM
City"), and `reverseGeocode` returns the generic label built from the
4-decimal rounded coordinates (containing "14.6741" and "121.0359" at that
input); both failure branches resolve with a value, never re-raising. -/
theorem gateway_fallback (q : String) (hq : 3 ≤ q.length) (lat lng : ℚ) :
    searchPlaces q .failure = MOCK_FALLBACK_LOCATIONS.filter (matchesQuery (toLowerStr q)) ∧
    reverseGeocode lat lng .failure =
      some ⟨"Location Coordinates", jsToFixed4 lat ++ ", " ++ jsToFixed4 lng⟩ ∧
    searchPlaces "SM City" .failure ≠ [] ∧
    (searchPlaces "SM City" .failure).all (MOCK_FALLBACK_LOCATIONS.contains ·) = true ∧
    jsIncludes (((reverseGeocode 14.6741 121.0359 .failure).map RGResult.area).getD "")
      "14.6741" = true ∧
    jsIncludes (((reverseGeocode 14.6741 121.0359 .failure).map RGResult.area).getD "")
      "121.0359" = true := by
  have hq2 : ¬ (q = "" ∨ q.length < 3) := by
    rintro (rfl | hlt)
    · exact absurd hq (by decide)
    · omega
  unfold searchPlaces
  rw [if_neg hq2]
  exact ⟨rfl, rfl, by decide, by decide, by decide, by decide⟩

/-- Witness for C6 at the scenario query and coordinates. -/
theorem gateway_fallback_witness :
    searchPlaces "SM City" .failure =
      MOCK_FALLBACK_LOCATIONS.filter (matchesQuery (toLowerStr "SM City")) ∧
    reverseGeocode 14.6741 121.0359 .failure =
      some ⟨"Location Coordinates", jsToFixed4 14.6741 ++ ", " ++ jsToFixed4 121.0359⟩ ∧
    searchPlaces "SM City" .failure ≠ [] ∧
    (searchPlaces "SM City" .failure).all (MOCK_FALLBACK_LOCATIONS.contains ·) = true ∧
    jsIncludes (((reverseGeocode 14.6741 121.0359 .failure).map RGResult.area).getD "")
      "14.6741" = true ∧
    jsIncludes (((reverseGeocode 14.6741 121.0359 .failure).map RGResult.area).getD "")
      "121.0359" = true :=
  gateway_fallback "SM City" (by decide) 14.6741 121.0359

/-- C7: a successful `getDirections` call returns a FASTEST itinerary with
`totalTimeMin = ceil(durationSec / 60)` and
`totalCost = ceil(13 + max(0, (distKm - 4) * 2))`; in particular a 6 km,
900 s summary yields 15 minutes and cost 17. -/
theorem getDirections_fare (now : ℕ) (feature : OrsFeature) (rest : List OrsFeature)
    (r : CalculatedRoute) (hr : getDirections now (.success (feature :: rest)) = some r) :
    r.type = .FASTEST ∧
    r.totalTimeMin = ((⌈feature.summary.duration / 60⌉ : ℤ) : ℚ) ∧
    r.totalCost = ((⌈(13 : ℚ) + max 0 ((feature.summary.distance - 4) * 2)⌉ : ℤ) : ℚ) ∧
    (feature.summary.distance = 6 → feature.summary.duration = 900 →
      r.totalTimeMin = 15 ∧ r.totalCost = 17) := by
  unfold getDirections at hr
  dsimp only at hr
  have hre := (Option.some.inj hr).symm
  subst hre
  refine ⟨rfl, rfl, rfl, fun hd hdur => ?_⟩
  dsimp only
  rw [hdur, hd]
  constructor <;> norm_num [max_def]

/-- The concrete itinerary of the fare-model scenario. -/
def fareScenarioRoute : CalculatedRoute :=
  { id := "route-0"
    totalTimeMin := 15
    totalDistanceKm := 6
    totalCost := 17
    path := []
    steps := []
    type := .FASTEST
    tags := ["Fare", "Distance", "Time"] }

/-- Witness for C7 at the 6 km / 900 s summary. -/
theorem getDirections_fare_witness :
    fareScenarioRoute.type = .FASTEST ∧
    fareScenarioRoute.totalTimeMin = ((⌈(900 : ℚ) / 60⌉ : ℤ) : ℚ) ∧
    fareScenarioRoute.totalCost = ((⌈(13 : ℚ) + max 0 (((6 : ℚ) - 4) * 2)⌉ : ℤ) : ℚ) ∧
    ((6 : ℚ) = 6 → (900 : ℚ) = 900 →
      fareScenarioRoute.totalTimeMin = 15 ∧ fareScenarioRoute.totalCost = 17) :=
  getDirections_fare 0 ⟨none, ⟨6, 900⟩, []⟩ [] fareScenarioRoute (by decide)

/-- A base itinerary with a zero cost and a sub-centimeter distance, as the
graph mode can produce for a walk-only leg. -/
def tinyBaseRoute : CalculatedRoute :=
  { id := "route-9"
    totalTimeMin := 0
    totalDistanceKm := 0.006
    totalCost := 0
    path := []
    steps := []
    type := .FASTEST
    tags := [] }

/-- C8 counterexample: for a base itinerary with `totalCost = 0` and
`totalDistanceKm = 0.006`, the cheapest variant costs 13 (the floor), which
exceeds the base cost, and the shortest variant rounds up to 0.01 km, which
exceeds the base distance. -/
theorem variant_monotonicity_counterexample :
    ((generateRouteVariants tinyBaseRoute)[1]?).map CalculatedRoute.totalCost = some 13 ∧
    tinyBaseRoute.totalCost = 0 ∧
    ¬ ((13 : ℚ) ≤ 0) ∧
    ((generateRouteVariants tinyBaseRoute)[2]?).map CalculatedRoute.totalDistanceKm =
      some 0.01 ∧
    tinyBaseRoute.totalDistanceKm = 0.006 ∧
    ¬ ((0.01 : ℚ) ≤ 0.006) := by
  decide

/-- C8 (amended): for a base itinerary whose `totalCost` is at least the
13 fare floor, whose `totalTimeMin` is nonnegative, and whose
`totalDistanceKm` is a nonnegative two-decimal value `k / 100` (every
itinerary the fare model produces satisfies all three), the variants obey
the claimed monotonicity: the cheapest variant costs no more and takes no
less time than the base, and the shortest variant is no longer and takes no
less time than the base. -/
theorem variant_monotonicity (b : CalculatedRoute) (hc : 13 ≤ b.totalCost)
    (ht : 0 ≤ b.totalTimeMin) (k : ℕ) (hd : b.totalDistanceKm = (k : ℚ) / 100) :
    (((generateRouteVariants b)[1]?).getD b).totalCost ≤ b.totalCost ∧
    b.totalTimeMin ≤ (((generateRouteVariants b)[1]?).getD b).totalTimeMin ∧
    (((generateRouteVariants b)[2]?).getD b).totalDistanceKm ≤ b.totalDistanceKm ∧
    b.totalTimeMin ≤ (((generateRouteVariants b)[2]?).getD b).totalTimeMin := by
  have hc0 : (0 : ℚ) ≤ b.totalCost := le_trans (by norm_num) hc
  refine ⟨?_, ?_, ?_, ?_⟩
  · show max 13 ((⌊b.totalCost * (0.7 : ℚ)⌋ : ℤ) : ℚ) ≤ b.totalCost
    refine max_le hc (le_trans (Int.floor_le _) ?_)
    nlinarith
  · show b.totalTimeMin ≤ ((⌈b.totalTimeMin * (1.3 : ℚ)⌉ : ℤ) : ℚ)
    refine le_trans ?_ (Int.le_ceil _)
    nlinarith
  · show jsToFixed2 (b.totalDistanceKm * (0.95 : ℚ)) ≤ b.totalDistanceKm
    rw [hd]
    unfold jsToFixed2
    have hk : (0 : ℚ) ≤ (k : ℚ) := Nat.cast_nonneg k
    have h1 : ⌊(k : ℚ) / 100 * (0.95 : ℚ) * 100 + mkRat 1 2⌋ < (k : ℤ) + 1 := by
      rw [Int.floor_lt, Rat.mkRat_eq_div]
      push_cast
      nlinarith
    have h2 : ((⌊(k : ℚ) / 100 * (0.95 : ℚ) * 100 + mkRat 1 2⌋ : ℤ) : ℚ) ≤ (k : ℚ) := by
      have h3 : ⌊(k : ℚ) / 100 * (0.95 : ℚ) * 100 + mkRat 1 2⌋ ≤ (k : ℤ) := by omega
      exact_mod_cast h3
    rw [Rat.mkRat_eq_div]
    gcongr
  · show b.totalTimeMin ≤ ((⌈b.totalTimeMin * (1.1 : ℚ)⌉ : ℤ) : ℚ)
    refine le_trans ?_ (Int.le_ceil _)
    nlinarith

/-- A base itinerary shaped like a fare-model result (cost at the floor or
above, nonnegative time, two-decimal distance). -/
def liveBaseRoute : CalculatedRoute :=
  { id := "route-7"
    totalTimeMin := 10
    totalDistanceKm := 5.5
    totalCost := 20
    path := []
    steps := []
    type := .FASTEST
    tags := ["Fare", "Distance", "Time"] }

/-- Witness for C8 (amended) on a fare-model-shaped base itinerary. -/
theorem variant_monotonicity_witness :
    (((generateRouteVariants liveBaseRoute)[1]?).getD liveBaseRoute).totalCost ≤
      liveBaseRoute.totalCost ∧
    liveBaseRoute.totalTimeMin ≤
      (((generateRouteVariants liveBaseRoute)[1]?).getD liveBaseRoute).totalTimeMin ∧
    (((generateRouteVariants liveBaseRoute)[2]?).getD liveBaseRoute).totalDistanceKm ≤
      liveBaseRoute.totalDistanceKm ∧
    liveBaseRoute.totalTimeMin ≤
      (((generateRouteVariants liveBaseRoute)[2]?).getD liveBaseRoute).totalTimeMin :=
  variant_monotonicity liveBaseRoute (by decide) (by decide) 550 (by decide)

/-! ## Itinerary ids (claim C9)

Both `calculateRoute` and `getDirections` mint the id
`` `route-${Date.now()}` ``, so the id is a pure function of the
millisecond timestamp.  Decoding the decimal digit string shows the mapping
from timestamps to ids is injective; conversely two computations inside the
same millisecond necessarily share an id. -/

/-- The numeric value of a decimal digit character. -/
def digitVal (c : Char) : ℕ := c.toNat - 48

/-- Decode a most-significant-first decimal digit string. -/
def decodeDigits : List Char → ℕ
  | [] => 0
  | c :: cs => digitVal c * 10 ^ cs.length + decodeDigits cs

/-- `digitVal` undoes `Nat.digitChar` on decimal digits. -/
theorem digitVal_digitChar (d : ℕ) (hd : d < 10) : digitVal (Nat.digitChar d) = d := by
  interval_cases d <;> decide

/-- Decoding what `Nat.toDigitsCore` produces recovers the input. -/
theorem decode_toDigitsCore (fuel : ℕ) :
    ∀ (n : ℕ) (ds : List Char), n < fuel →
      decodeDigits (Nat.toDigitsCore 10 fuel n ds) = n * 10 ^ ds.length + decodeDigits ds := by
  induction fuel with
  | zero => intro n ds h; omega
  | succ fuel ih =>
    intro n ds h
    simp only [Nat.toDigitsCore]
    by_cases h0 : n / 10 = 0
    · rw [if_pos h0]
      have hn : n < 10 := by omega
      rw [decodeDigits, digitVal_digitChar (n % 10) (Nat.mod_lt _ (by norm_num)),
        Nat.mod_eq_of_lt hn]
    · rw [if_neg h0]
      have hpos : 0 < n := by
        rcases Nat.eq_zero_or_pos n with h1 | h1
        · subst h1; simp at h0
        · exact h1
      have hlt : n / 10 < fuel := by
        have := Nat.div_lt_self hpos (by norm_num : 1 < 10)
        omega
      rw [ih (n / 10) (Nat.digitChar (n % 10) :: ds) hlt]
      rw [decodeDigits, digitVal_digitChar (n % 10) (Nat.mod_lt _ (by norm_num)),
        List.length_cons, pow_succ]
      have hmod := Nat.div_add_mod n 10
      generalize (10 : ℕ) ^ ds.length = P
      conv_rhs => rw [← hmod]
      ring

/-- Decoding `Nat.toDigits` recovers the number. -/
theorem decode_toDigits (n : ℕ) : decodeDigits (Nat.toDigits 10 n) = n := by
  unfold Nat.toDigits
  rw [decode_toDigitsCore (n + 1) n [] (Nat.lt_succ_self n)]
  simp [decodeDigits]

/-- The decimal representation of a natural number determines it. -/
theorem natRepr_injective (m n : ℕ) (h : Nat.repr m = Nat.repr n) : m = n := by
  have h2 : Nat.toDigits 10 m = Nat.toDigits 10 n := congrArg String.data h
  calc m = decodeDigits (Nat.toDigits 10 m) := (decode_toDigits m).symm
    _ = decodeDigits (Nat.toDigits 10 n) := by rw [h2]
    _ = n := decode_toDigits n

/-- Two different timestamps mint different itinerary ids. -/
theorem routeId_injective (t₁ t₂ : ℕ) (h : routeId t₁ = routeId t₂) : t₁ = t₂ := by
  apply natRepr_injective
  apply String.ext
  have hdata : "route-".data ++ (Nat.repr t₁).data = "route-".data ++ (Nat.repr t₂).data :=
    congrArg String.data h
  exact List.append_cancel_left hdata

/-- Every itinerary `calculateRoute` returns carries the id of its
timestamp. -/
theorem calculateRoute_id (now : ℕ) (start finish : Coordinates) (m : Metric)
    (r : CalculatedRoute) (hr : calculateRoute now start finish m = some r) :
    r.id = routeId now := by
  unfold calculateRoute at hr
  repeat' split at hr
  all_goals first
    | exact Option.noConfusion hr
    | (cases Option.some.inj hr; rfl)

/-- Every itinerary `getDirections` returns carries the id of its
timestamp. -/
theorem getDirections_id (now : ℕ) (o : FetchOutcome (List OrsFeature))
    (r : CalculatedRoute) (hr : getDirections now o = some r) :
    r.id = routeId now := by
  unfold getDirections at hr
  repeat' split at hr
  all_goals first
    | exact Option.noConfusion hr
    | (cases Option.some.inj hr; rfl)

/-- C9 counterexample: two distinct computations (different end points and
different returned paths) performed within the same millisecond both
receive the id `route-0`. -/
theorem itinerary_id_counterexample :
    (calculateRoute 0 ⟨14.6741, 121.0359⟩ ⟨14.6575, 121.0580⟩ .TIME).map CalculatedRoute.id =
      some "route-0" ∧
    (calculateRoute 0 ⟨14.6741, 121.0359⟩ ⟨14.6680, 121.0550⟩ .TIME).map CalculatedRoute.id =
      some "route-0" ∧
    (calculateRoute 0 ⟨14.6741, 121.0359⟩ ⟨14.6575, 121.0580⟩ .TIME).map CalculatedRoute.path ≠
      (calculateRoute 0 ⟨14.6741, 121.0359⟩ ⟨14.6680, 121.0550⟩ .TIME).map CalculatedRoute.path := by
  decide

/-- C9 (amended): an itinerary id is `route-` followed by the decimal
millisecond timestamp of the computation, for `calculateRoute` and
`getDirections` alike; two computations at different timestamps therefore
receive different ids, while computations within one millisecond reuse the
same id. -/
theorem itinerary_id_timestamps (t₁ t₂ : ℕ) (start finish : Coordinates) (m : Metric)
    (o : FetchOutcome (List OrsFeature)) (r₁ r₂ : CalculatedRoute)
    (h₁ : calculateRoute t₁ start finish m = some r₁)
    (h₂ : getDirections t₂ o = some r₂) :
    r₁.id = routeId t₁ ∧ r₂.id = routeId t₂ ∧ (t₁ ≠ t₂ → r₁.id ≠ r₂.id) := by
  have e₁ := calculateRoute_id t₁ start finish m r₁ h₁
  have e₂ := getDirections_id t₂ o r₂ h₂
  refine ⟨e₁, e₂, fun hne heq => hne ?_⟩
  apply routeId_injective
  rw [← e₁, ← e₂]
  exact heq

/-- The fare-model itinerary minted one millisecond later. -/
def fareScenarioRouteAt1 : CalculatedRoute :=
  { fareScenarioRoute with id := "route-1" }

/-- Witness for C9 (amended): a graph-mode route at t = 0 and a
directions-mode route at t = 1. -/
theorem itinerary_id_timestamps_witness :
    scenarioRoute.id = routeId 0 ∧ fareScenarioRouteAt1.id = routeId 1 ∧
    ((0 : ℕ) ≠ 1 → scenarioRoute.id ≠ fareScenarioRouteAt1.id) :=
  itinerary_id_timestamps 0 1 ⟨14.6741, 121.0359⟩ ⟨14.6575, 121.0580⟩ .TIME
    (.success [⟨none, ⟨6, 900⟩, []⟩]) scenarioRoute fareScenarioRouteAt1
    (by decide) (by decide)

/-! ## Totality of reverse geocoding (claim C10) -/

/-- A `||`-chain result is non-empty whenever its default is. -/
theorem jsOrStr_ne_empty (o : Option String) (d : String) (hd : d ≠ "") :
    jsOrStr o d ≠ "" := by
  cases o with
  | none => exact hd
  | some s =>
    unfold jsOrStr
    dsimp only
    split_ifs with hs
    · exact hd
    · exact hs

/-- A string with a literal comma inside is non-empty. -/
theorem append_comma_ne_empty (a b : String) : a ++ ", " ++ b ≠ "" := by
  intro h
  have hlen := congrArg String.length h
  simp only [String.length_append] at hlen
  have h2 : (", " : String).length = 2 := rfl
  have h3 : ("" : String).length = 0 := rfl
  omega

/-- C10: for every coordinate and every provider outcome — failure, empty
feature list, or a feature — `reverseGeocode` resolves with a value whose
name and area are non-empty strings; it never returns the empty result its
nullable signature allows. -/
theorem reverseGeocode_total (lat lng : ℚ) (o : FetchOutcome (List RGProps)) :
    (reverseGeocode lat lng o).isSome = true ∧
    ((reverseGeocode lat lng o).map RGResult.name).getD "" ≠ "" ∧
    ((reverseGeocode lat lng o).map RGResult.area).getD "" ≠ "" := by
  cases o with
  | failure =>
    refine ⟨rfl, ?_, ?_⟩
    · show ("Location Coordinates" : String) ≠ ""
      decide
    · show jsToFixed4 lat ++ ", " ++ jsToFixed4 lng ≠ ""
      exact append_comma_ne_empty _ _
  | success features =>
    cases features with
    | nil =>
      refine ⟨rfl, ?_, ?_⟩
      · show ("Unknown Location" : String) ≠ ""
        decide
      · show ("Address not found" : String) ≠ ""
        decide
    | cons props rest =>
      refine ⟨rfl, ?_, ?_⟩
      · show jsOrStr props.neighbourhood (jsOrStr props.locality (jsOrStr props.borough
          (jsOrStr props.county (jsOrStr props.region "Unknown Location")))) ≠ ""
        exact jsOrStr_ne_empty _ _ (jsOrStr_ne_empty _ _ (jsOrStr_ne_empty _ _
          (jsOrStr_ne_empty _ _ (jsOrStr_ne_empty _ _ (by decide)))))
      · show jsOrStr props.name (jsOrStr props.street (jsOrStr props.label "Unknown Area")) ≠ ""
        exact jsOrStr_ne_empty _ _ (jsOrStr_ne_empty _ _ (jsOrStr_ne_empty _ _ (by decide)))
